import Mathlib

/-!
Shallow embedding of `src/dashboard.py` (a Streamlit dashboard with a
persisted to-do list, a persisted "vibe" setting, and a two-step weather
fetch) together with theorems settling the spec claims about it.

Modelling conventions:
* Python JSON values are the inductive `Json`; a Python `dict` is an
  association list `List (String × Json)` (keys unique in practice,
  first binding wins, as in CPython lookup).
* Python exceptions are the `Except PyExc` monad; a function that can
  raise returns `Except PyExc α`.
* The filesystem view of one file is `Option` of its (parsed) content;
  `save_json` is modelled by storing the written value.
* `requests.get` is an oracle `env : String → HttpResult`: either a
  response with a status code and a body (whose JSON parse may fail),
  or `netError` (connection error / timeout, which makes `requests.get`
  raise).  `get_nyc_forecast_periods` additionally returns the list of
  URLs it requested, in order, so that "the second request is never
  attempted" is expressible.
-/

namespace Dashboard

/-- Python exception kinds relevant to the embedded code. -/
inductive PyExc where
  | requestError
  | jsonError
  | keyError
  | typeError
  | attributeError
  | indexError
deriving DecidableEq, Repr

/-- JSON values (the results of `json.loads` / `r.json()`).  Python's
`None` and JSON `null` both map to `Json.null`. -/
inductive Json where
  | null
  | bool (b : Bool)
  | num (n : Int)
  | str (s : String)
  | arr (elems : List Json)
  | obj (fields : List (String × Json))

/-- Lookup in a Python dict (association list): first binding for the key. -/
def dictGet (fields : List (String × Json)) (k : String) : Option Json :=
  (fields.find? (fun kv => kv.1 == k)).map (fun kv => kv.2)

/-- Python `d.get(k, default)` on a dict value. -/
def dictGetD (fields : List (String × Json)) (k : String) (d : Json) : Json :=
  (dictGet fields k).getD d

/-- Python `d[k] = v`: replaces the first binding in place, or appends. -/
def dictSet (fields : List (String × Json)) (k : String) (v : Json) :
    List (String × Json) :=
  if fields.any (fun kv => kv.1 == k) then
    fields.map (fun kv => if kv.1 == k then (k, v) else kv)
  else fields ++ [(k, v)]

/-- Python `p.get(k, default)`: raises `AttributeError` unless `p` is a dict. -/
def jget (p : Json) (k : String) (d : Json) : Except PyExc Json :=
  match p with
  | .obj fs => .ok (dictGetD fs k d)
  | _ => .error .attributeError

/-- Python `p[k]` subscript on a JSON value: `KeyError` when the key is
missing, `TypeError` when `p` is not a dict. -/
def jindex (p : Json) (k : String) : Except PyExc Json :=
  match p with
  | .obj fs =>
    match dictGet fs k with
    | some v => .ok v
    | none => .error .keyError
  | _ => .error .typeError

/-- Model of Python `str.strip()`: drop leading and trailing whitespace. -/
def py_strip (s : String) : String :=
  String.mk (((s.data.dropWhile Char.isWhitespace).reverse.dropWhile
    Char.isWhitespace).reverse)

/-- Model of Python `str.lower()` (ASCII case folding, which covers every
condition string the service produces). -/
def py_lower (s : String) : String :=
  String.mk (s.data.map Char.toLower)

/-- Substring test on character lists: `needle` occurs contiguously in the
haystack. -/
def charsContains (needle : List Char) : List Char → Bool
  | [] => needle.isEmpty
  | c :: rest =>
    ((c :: rest).take needle.length == needle) || charsContains needle rest

/-- Model of Python `sub in s` on strings: case-sensitive substring test. -/
def strIn (sub : String) (s : String) : Bool :=
  charsContains sub.data s.data

/-! ## `weather_emoji` (the condition classifier), dashboard.py lines 48-81 -/

/-- `weather_emoji(short_forecast, temp_f=None)`: ordered keyword rules on
the lowercased condition text, with temperature refinements.  `none` for
`short_forecast` models Python `None` (line 49: `(short_forecast or "")`). -/
def weather_emoji (short_forecast : Option String) (temp_f : Option Int) :
    String :=
  let s := py_lower (short_forecast.getD "")
  if strIn "thunder" s || strIn "t-storm" s || strIn "storm" s then "⛈️"
  else if strIn "tornado" s then "🌪️"
  else if strIn "snow" s || strIn "flurr" s || strIn "sleet" s ||
      strIn "ice" s || strIn "freezing" s then "❄️"
  else if strIn "hail" s then "🧊"
  else if strIn "rain" s || strIn "showers" s || strIn "drizzle" s then "🌧️"
  else if strIn "fog" s || strIn "haze" s || strIn "mist" s ||
      strIn "smoke" s then "🌫️"
  else if strIn "wind" s || strIn "breezy" s || strIn "gust" s then "💨"
  else if strIn "cloud" s || strIn "overcast" s then "☁️"
  else if strIn "sun" s || strIn "clear" s || strIn "fair" s then
    match temp_f with
    | some t => if t ≥ 85 then "🔥" else "☀️"
    | none => "☀️"
  else
    match temp_f with
    | some t => if t ≤ 32 then "🥶" else if t ≥ 90 then "🔥" else "🌤️"
    | none => "🌤️"

/-- The spec's view of the classifier: an explicit ordered decision table,
each row a keyword list and the icon it yields (row 9's icon depends on the
temperature). -/
def ruleTable : List (List String × (Option Int → String)) :=
  [ (["thunder", "t-storm", "storm"], fun _ => "⛈️"),
    (["tornado"], fun _ => "🌪️"),
    (["snow", "flurr", "sleet", "ice", "freezing"], fun _ => "❄️"),
    (["hail"], fun _ => "🧊"),
    (["rain", "showers", "drizzle"], fun _ => "🌧️"),
    (["fog", "haze", "mist", "smoke"], fun _ => "🌫️"),
    (["wind", "breezy", "gust"], fun _ => "💨"),
    (["cloud", "overcast"], fun _ => "☁️"),
    (["sun", "clear", "fair"], fun temp =>
      match temp with
      | some t => if t ≥ 85 then "🔥" else "☀️"
      | none => "☀️") ]

/-- The spec's temperature-only fallback when no keyword row matched. -/
def fallbackIcon (temp : Option Int) : String :=
  match temp with
  | some t => if t ≤ 32 then "🥶" else if t ≥ 90 then "🔥" else "🌤️"
  | none => "🌤️"

/-- First-match evaluation of a decision table, top to bottom. -/
def evalRules (s : String) (temp : Option Int) :
    List (List String × (Option Int → String)) → String
  | [] => fallbackIcon temp
  | (kws, icon) :: rest =>
    if kws.any (fun k => strIn k s) then icon temp else evalRules s temp rest

/-- Modelled from the spec: `classify` as ordered keyword rules, first match
wins, case-insensitive substring matching against the condition text. -/
def classifyTable (cond : Option String) (temp : Option Int) : String :=
  evalRules (py_lower (cond.getD "")) temp ruleTable

/-! ## `get_nyc_forecast_periods`, dashboard.py lines 86-115 -/

/-- Outcome of one `requests.get` call: a response (status code plus the
result of `r.json()`, `none` when the body is not valid JSON so `r.json()`
raises), or a connection error / timeout, which makes `requests.get` raise. -/
inductive HttpResult where
  | response (status : Nat) (body : Option Json)
  | netError

/-- The fixed points-lookup URL built from `lat, lon = 40.7128, -74.0060`. -/
def pointsUrl : String := "https://api.weather.gov/points/40.7128,-74.006"

/-- One element of the `cleaned` list built in the loop at lines 105-114;
field values are the raw JSON values returned by `p.get`. -/
structure CleanedPeriod where
  name : Json
  temp : Json
  temp_unit : Json
  short : Json
  wind : Json
  detail : Json

/-- The loop body at lines 107-114: `p.get` with the source's defaults.
Raises (`AttributeError`) when `p` is not a dict, exactly as `p.get` would. -/
def clean_period (p : Json) : Except PyExc CleanedPeriod := do
  let name ← jget p "name" (.str "Forecast")
  let temp ← jget p "temperature" .null
  let temp_unit ← jget p "temperatureUnit" (.str "F")
  let short ← jget p "shortForecast" (.str "")
  let wind ← jget p "windSpeed" (.str "")
  let detail ← jget p "detailedForecast" (.str "")
  return ⟨name, temp, temp_unit, short, wind, detail⟩

/-- The accumulation loop at lines 105-114 over the (already sliced) period
list: the first raising `p.get` aborts the whole function, otherwise the
cleaned records are collected in order. -/
def clean_periods : List Json → Except PyExc (List CleanedPeriod)
  | [] => .ok []
  | p :: rest => do
    let c ← clean_period p
    let cs ← clean_periods rest
    return c :: cs

/-- `get_nyc_forecast_periods(n_periods)` against a network oracle `env`.
The first component is the function's outcome: `.error e` when the Python
code raises `e` (uncaught — there is no try/except in the source), and
`.ok (result, err)` for a normal return of the pair `(result, err)`.
The second component is the list of URLs requested, in order. -/
def get_nyc_forecast_periods (env : String → HttpResult) (n_periods : Nat) :
    Except PyExc (Option (List CleanedPeriod) × Option String) × List String :=
  match env pointsUrl with
  | .netError => (.error .requestError, [pointsUrl])
  | .response status body =>
    if status ≠ 200 then
      (.ok (none, some "Could not load weather location"), [pointsUrl])
    else
      match body with
      | none => (.error .jsonError, [pointsUrl])
      | some points_data =>
        match (do jindex (← jindex points_data "properties") "forecast" :
            Except PyExc Json) with
        | .error e => (.error e, [pointsUrl])
        | .ok (.str forecast_url) =>
          match env forecast_url with
          | .netError => (.error .requestError, [pointsUrl, forecast_url])
          | .response status2 body2 =>
            if status2 ≠ 200 then
              (.ok (none, some "Could not load forecast"), [pointsUrl, forecast_url])
            else
              match body2 with
              | none => (.error .jsonError, [pointsUrl, forecast_url])
              | some forecast_data =>
                match (do jindex (← jindex forecast_data "properties") "periods" :
                    Except PyExc Json) with
                | .error e => (.error e, [pointsUrl, forecast_url])
                | .ok (.arr periods) =>
                  match clean_periods (periods.take n_periods) with
                  | .error e => (.error e, [pointsUrl, forecast_url])
                  | .ok cleaned =>
                    (.ok (some cleaned, none), [pointsUrl, forecast_url])
                | .ok _ => (.error .typeError, [pointsUrl, forecast_url])
        | .ok _ => (.error .typeError, [pointsUrl])

/-! ## Session state and the to-do mutations, dashboard.py lines 118-222 -/

/-- A task record `{"task": ..., "done": ...}` as appended at line 185. -/
structure Task where
  task : String
  done : Bool
deriving DecidableEq, Repr

/-- In-memory to-do list (`st.session_state.todos`) together with the
content of `todos.json`: `some data` once `save_json` has written `data`
(serialization is deterministic, so the file is tracked by its value). -/
structure TodoState where
  todos : List Task
  file : Option (List Task)
deriving DecidableEq, Repr

/-- The Add-button handler, lines 183-187: append the stripped text unless
it strips to empty, then persist. -/
def add_task (s : TodoState) (new_task : String) : TodoState :=
  if py_strip new_task ≠ "" then
    let todos := s.todos ++ [⟨py_strip new_task, false⟩]
    ⟨todos, some todos⟩
  else s

/-- The Clear-all-button handler, lines 190-193. -/
def clear_all (_s : TodoState) : TodoState :=
  ⟨[], some []⟩

/-- The Clear-completed-button handler, lines 196-199: keep the tasks whose
`done` is false, then persist. -/
def clear_completed (s : TodoState) : TodoState :=
  let todos := s.todos.filter (fun t => !t.done)
  ⟨todos, some todos⟩

/-- The checkbox handler, lines 210-213: `done` is the checkbox state for
row `i`; the row is updated and persisted only when it changed.  `i` comes
from `enumerate`, so in the app it is always in range; out of range the
subscript would raise `IndexError`. -/
def toggle_task (s : TodoState) (i : Nat) (done : Bool) :
    Except PyExc TodoState :=
  match s.todos[i]? with
  | none => .error .indexError
  | some t =>
    if done != t.done then
      let todos := s.todos.set i { t with done := done }
      .ok ⟨todos, some todos⟩
    else .ok s

/-- The delete-button handler, lines 219-222: `todos.pop(i)` then persist. -/
def delete_task (s : TodoState) (i : Nat) : Except PyExc TodoState :=
  match s.todos[i]? with
  | none => .error .indexError
  | some _ =>
    let todos := s.todos.eraseIdx i
    .ok ⟨todos, some todos⟩

/-! ## The vibe block, dashboard.py lines 22-29 and 161-168 -/

/-- The enumerated vibe labels (lines 22-29). -/
def VIBES : List String :=
  ["Soft grind", "Locked in", "CEO mode", "Golden retriever energy",
   "Cozy & calm", "Unhinged (but productive)"]

/-- In-memory settings dict (`st.session_state.settings`) together with the
content of `settings.json`, tracked by the value last written. -/
structure SettingsState where
  settings : List (String × Json)
  file : Option (List (String × Json))

/-- Lines 166-168: compare the chosen vibe with `settings.get("vibe")`
(Python `!=` between a `str` and an arbitrary value, or `None` when the key
is absent); on any difference, write the new vibe into the dict and persist
the whole settings object. -/
def vibe_update (s : SettingsState) (vibe : String) : SettingsState :=
  let changed :=
    match dictGet s.settings "vibe" with
    | some (Json.str v) => v != vibe
    | some _ => true
    | none => true
  if changed then
    let settings := dictSet s.settings "vibe" (Json.str vibe)
    ⟨settings, some settings⟩
  else s

/-- Line 162: `VIBES.index(saved_vibe) if saved_vibe in VIBES else 0`.
Python `in` / `index` compare the saved JSON value with the string labels,
so only a string member of `VIBES` yields a nonzero index. -/
def vibe_default_index (saved_vibe : Json) : Nat :=
  match saved_vibe with
  | Json.str v => if v ∈ VIBES then VIBES.indexOf v else 0
  | _ => 0

/-- Lines 161-168: read the saved vibe with default `VIBES[0]`, compute the
selectbox's default index, let the selectbox yield the element at the user's
pick (`none` = no interaction, so the element at the default index; the
widget offers exactly the elements of `VIBES`), then run the
update-and-persist comparison.  Returns the displayed vibe and new state. -/
def vibe_block (s : SettingsState) (pick : Option Nat) :
    String × SettingsState :=
  let saved_vibe := dictGetD s.settings "vibe" (Json.str (VIBES.getD 0 ""))
  let vibe := VIBES.getD (pick.getD (vibe_default_index saved_vibe)) ""
  (vibe, vibe_update s vibe)

/-! ## `load_json`, dashboard.py lines 34-40 -/

/-- `load_json(path, default)` with the filesystem and `json.loads`
abstracted: `file` is the file's text when `path.exists()`, and `parse`
models `json.loads`, `none` meaning the parse raises (any such exception is
caught by the bare `except` and turned into `default`). -/
def load_json (parse : String → Option Json) (file : Option String)
    (default : Json) : Json :=
  match file with
  | some text =>
    match parse text with
    | some v => v
    | none => default
  | none => default

/-! ## Concrete network oracles used to evaluate the theorems -/

/-- Oracle on which every request fails with a connection error/timeout. -/
def envDown : String → HttpResult := fun _ => .netError

/-- Oracle on which every request yields an HTTP 500 response. -/
def env500 : String → HttpResult := fun _ => .response 500 none

/-- A well-formed points-lookup body carrying the given forecast URL. -/
def pointsBody (furl : String) : Json :=
  Json.obj [("properties", Json.obj [("forecast", Json.str furl)])]

/-- A well-formed forecast body carrying the given period list. -/
def forecastBody (periods : List Json) : Json :=
  Json.obj [("properties", Json.obj [("periods", Json.arr periods)])]

/-- Healthy oracle whose forecast holds a single period with no fields. -/
def envOneEmptyPeriod : String → HttpResult := fun u =>
  if u = pointsUrl then
    .response 200 (some (pointsBody "https://api.weather.gov/gridpoints/OKX/33,35/forecast"))
  else .response 200 (some (forecastBody [Json.obj []]))

/-- Healthy oracle whose forecast holds three periods, the first with a
name and temperature, the other two empty. -/
def envThreePeriods : String → HttpResult := fun u =>
  if u = pointsUrl then .response 200 (some (pointsBody "grid"))
  else .response 200 (some (forecastBody
    [Json.obj [("name", Json.str "Today"), ("temperature", Json.num 70)],
     Json.obj [], Json.obj []]))

/-! ## Shared helper lemmas -/

/-- The cleaning loop produces one record per input period. -/
theorem clean_periods_length :
    ∀ (ps : List Json) (cs : List CleanedPeriod),
      clean_periods ps = .ok cs → cs.length = ps.length := by
  intro ps
  induction ps with
  | nil =>
    intro cs h
    simp only [clean_periods] at h
    cases h
    rfl
  | cons p rest ih =>
    intro cs h
    simp only [clean_periods, bind, Except.bind] at h
    cases hp : clean_period p with
    | error e => rw [hp] at h; cases h
    | ok c =>
      rw [hp] at h
      cases hr : clean_periods rest with
      | error e => rw [hr] at h; cases h
      | ok cs' =>
        rw [hr] at h
        cases h
        simp [ih cs' hr]

/-- Any index below 6 selects an element of `VIBES`. -/
theorem vibes_getD_mem (idx : Nat) (h : idx < 6) : VIBES.getD idx "" ∈ VIBES := by
  interval_cases idx <;> decide

/-- The selectbox default index is always in range. -/
theorem vibe_default_index_lt (j : Json) : vibe_default_index j < 6 := by
  cases j with
  | str v =>
    simp only [vibe_default_index]
    split_ifs with hv
    · have := List.indexOf_lt_length.mpr hv
      simpa [VIBES] using this
    · omega
  | null => exact (by decide : vibe_default_index Json.null < 6)
  | bool b => simp [vibe_default_index]
  | num n => simp [vibe_default_index]
  | arr xs => simp [vibe_default_index]
  | obj fs => simp [vibe_default_index]

/-! ## The claims -/

/-- Claim C2: the classifier evaluates the spec's ordered keyword rules,
first match wins, case-insensitively on the condition text (proved as a
refinement: `weather_emoji` agrees everywhere with the spec's decision
table `classifyTable`), and the five pinned examples hold: rain for
"Chance Showers"/60, heat (not plain sun) for "Sunny"/95, plain sun for
"Clear"/20, cold for ""/10, and the neutral fallback for ""/70. -/
theorem C2_classifier_rules :
    (∀ c t, weather_emoji c t = classifyTable c t)
    ∧ weather_emoji (some "Chance Showers") (some 60) = "🌧️"
    ∧ (weather_emoji (some "Sunny") (some 95) = "🔥"
        ∧ weather_emoji (some "Sunny") (some 95) ≠ "☀️")
    ∧ weather_emoji (some "Clear") (some 20) = "☀️"
    ∧ weather_emoji (some "") (some 10) = "🥶"
    ∧ weather_emoji (some "") (some 70) = "🌤️" := by
  refine ⟨?_, by decide, ⟨by decide, by decide⟩, by decide, by decide, by decide⟩
  intro c t
  simp only [weather_emoji, classifyTable, evalRules, ruleTable, List.any_cons,
    List.any_nil, Bool.or_false, Bool.or_assoc, fallbackIcon]

set_option maxHeartbeats 1000000 in
/-- Claim C10: the classifier is total in its condition argument — a `None`
condition behaves exactly like the empty string, and every input is mapped
to exactly one icon from the fixed icon set (the embedding is a total
function, mirroring that the Python body only uses non-raising string and
comparison operations). -/
theorem C10_classifier_total :
    (∀ t, weather_emoji none t = weather_emoji (some "") t)
    ∧ ∀ c t, weather_emoji c t ∈
        ["⛈️", "🌪️", "❄️", "🧊", "🌧️", "🌫️", "💨", "☁️", "🔥", "☀️", "🥶", "🌤️"] := by
  constructor
  · intro t; rfl
  · intro c t
    unfold weather_emoji
    cases t <;> (dsimp only; split_ifs <;> decide)

/-- Claim C3: `load_json` returns the default, without raising, whenever
the file does not exist or its contents fail to parse as JSON. -/
theorem C3_load_json_default (parse : String → Option Json) (default : Json) :
    load_json parse none default = default
    ∧ ∀ text, parse text = none →
        load_json parse (some text) default = default := by
  refine ⟨rfl, ?_⟩
  intro text h
  simp [load_json, h]

/-- Witness for C3 at a concrete unparseable file and missing file. -/
theorem C3_load_json_default_witness :
    load_json (fun _ => none) none (Json.arr []) = Json.arr []
    ∧ load_json (fun _ => none) (some "not json") (Json.arr []) = Json.arr [] :=
  ⟨(C3_load_json_default (fun _ => none) (Json.arr [])).1,
   (C3_load_json_default (fun _ => none) (Json.arr [])).2 "not json" rfl⟩

/-- Claim C7: adding a task whose stripped text is non-empty appends exactly
`{task: stripped, done: false}` at the tail, leaving prior tasks unchanged
and persisting the new list; adding an empty or whitespace-only string is a
no-op on both the list and the file. -/
theorem C7_add_task (s : TodoState) (text : String) :
    (py_strip text ≠ "" →
      (add_task s text).todos = s.todos ++ [⟨py_strip text, false⟩]
      ∧ (add_task s text).file = some (s.todos ++ [⟨py_strip text, false⟩]))
    ∧ (py_strip text = "" → add_task s text = s) := by
  constructor
  · intro h; simp [add_task, h]
  · intro h; simp [add_task, h]

/-- Witness for C7: a concrete append and a concrete whitespace no-op. -/
theorem C7_add_task_witness :
    (add_task ⟨[⟨"old", true⟩], none⟩ "  new task  ").todos
      = [⟨"old", true⟩, ⟨"new task", false⟩]
    ∧ add_task ⟨[⟨"old", true⟩], none⟩ "   " = ⟨[⟨"old", true⟩], none⟩ := by
  constructor
  · rw [((C7_add_task ⟨[⟨"old", true⟩], none⟩ "  new task  ").1 (by decide)).1]
    rfl
  · exact (C7_add_task ⟨[⟨"old", true⟩], none⟩ "   ").2 (by decide)

/-- Claim C6: every mutating path of the six operations ends with the
backing file holding exactly the new in-memory value — each handler calls
`save_json` with the updated list (or settings) it just installed.  The
no-op paths (empty add, unchanged checkbox, unchanged vibe) mutate nothing
and are stated as leaving the state untouched. -/
theorem C6_read_your_writes :
    (∀ s text, py_strip text ≠ "" →
      (add_task s text).file = some (add_task s text).todos)
    ∧ (∀ s : TodoState, (clear_all s).file = some (clear_all s).todos)
    ∧ (∀ s, (clear_completed s).file = some (clear_completed s).todos)
    ∧ (∀ s i d s', toggle_task s i d = .ok s' →
        s' = s ∨ s'.file = some s'.todos)
    ∧ (∀ s i s', delete_task s i = .ok s' → s'.file = some s'.todos)
    ∧ (∀ s v, vibe_update s v = s
        ∨ (vibe_update s v).file = some (vibe_update s v).settings) := by
  refine ⟨?_, fun s => rfl, fun s => rfl, ?_, ?_, ?_⟩
  · intro s text h
    simp [add_task, h]
  · intro s i d s' h
    unfold toggle_task at h
    split at h
    · cases h
    · split at h
      · cases h; right; rfl
      · cases h; left; rfl
  · intro s i s' h
    unfold delete_task at h
    split at h
    · cases h
    · cases h; rfl
  · intro s v
    unfold vibe_update
    dsimp only
    split_ifs with hc
    · right; rfl
    · left; rfl

/-- Witness for C6: each mutating operation run at a concrete state. -/
theorem C6_read_your_writes_witness :
    (add_task ⟨[], none⟩ "x").file = some (add_task ⟨[], none⟩ "x").todos
    ∧ (clear_all ⟨[⟨"a", true⟩], none⟩).file
        = some (clear_all ⟨[⟨"a", true⟩], none⟩).todos
    ∧ (clear_completed ⟨[⟨"a", true⟩, ⟨"b", false⟩], none⟩).file
        = some (clear_completed ⟨[⟨"a", true⟩, ⟨"b", false⟩], none⟩).todos
    ∧ ((⟨[⟨"a", true⟩], some [⟨"a", true⟩]⟩ : TodoState) = ⟨[⟨"a", false⟩], none⟩
        ∨ (some [⟨"a", true⟩] : Option (List Task)) = some [⟨"a", true⟩])
    ∧ (some [] : Option (List Task)) = some []
    ∧ (vibe_update ⟨[], none⟩ "CEO mode" = ⟨[], none⟩
        ∨ (vibe_update ⟨[], none⟩ "CEO mode").file
            = some (vibe_update ⟨[], none⟩ "CEO mode").settings) := by
  refine ⟨C6_read_your_writes.1 ⟨[], none⟩ "x" (by decide),
    C6_read_your_writes.2.1 ⟨[⟨"a", true⟩], none⟩,
    C6_read_your_writes.2.2.1 ⟨[⟨"a", true⟩, ⟨"b", false⟩], none⟩,
    ?_, ?_,
    C6_read_your_writes.2.2.2.2.2 ⟨[], none⟩ "CEO mode"⟩
  · exact C6_read_your_writes.2.2.2.1 ⟨[⟨"a", false⟩], none⟩ 0 true
      ⟨[⟨"a", true⟩], some [⟨"a", true⟩]⟩ rfl
  · exact C6_read_your_writes.2.2.2.2.1 ⟨[⟨"a", false⟩], none⟩ 0
      ⟨[], some []⟩ rfl

/-- Claim C4 counterexample: with the persisted vibe `"weird"` (not in
`VIBES`) and no user interaction, a single render falls back to displaying
`VIBES[0]` but also immediately overwrites both the in-memory settings and
the persisted file with `VIBES[0]` — the stored raw value is not kept until
the user picks a different vibe, contradicting the claim. -/
theorem C4_raw_value_discarded :
    vibe_block ⟨[("vibe", Json.str "weird")], some [("vibe", Json.str "weird")]⟩ none
      = ("Soft grind",
         ⟨[("vibe", Json.str "Soft grind")], some [("vibe", Json.str "Soft grind")]⟩)
    ∧ "weird" ∉ VIBES
    ∧ Json.str "Soft grind" ≠ Json.str "weird" := by
  refine ⟨rfl, by decide, ?_⟩
  intro h
  injection h with h'
  exact absurd h' (by decide)

/-- Claim C4 as amended: if the loaded vibe value is not in the enumerated
set, the UI falls back to displaying the set's first element, and on the
same render the settings are self-healed — the first element is written
into the in-memory dict and persisted, discarding the stored raw value
without waiting for a user action. -/
theorem C4_amended_selfheal (raw : Json) (file : Option (List (String × Json)))
    (h : ∀ v, raw = Json.str v → v ∉ VIBES) :
    vibe_block ⟨[("vibe", raw)], file⟩ none
      = ("Soft grind",
         ⟨[("vibe", Json.str "Soft grind")], some [("vibe", Json.str "Soft grind")]⟩) := by
  cases raw with
  | str v =>
    have hv : v ∉ VIBES := h v rfl
    have hne : v ≠ "Soft grind" := by
      intro e
      exact hv (e ▸ (by decide : ("Soft grind" : String) ∈ VIBES))
    have hb : (v != "Soft grind") = true := bne_iff_ne.mpr hne
    have hidx : vibe_default_index (Json.str v) = 0 := if_neg hv
    have h0 : VIBES[0]?.getD "" = "Soft grind" := rfl
    have hup : vibe_update ⟨[("vibe", Json.str v)], file⟩ "Soft grind"
        = ⟨[("vibe", Json.str "Soft grind")], some [("vibe", Json.str "Soft grind")]⟩ := by
      simp [vibe_update, dictGet, dictSet, hb]
    simp [vibe_block, dictGetD, dictGet, hidx, h0, hup]
  | null => rfl
  | bool b => rfl
  | num n => rfl
  | arr xs => rfl
  | obj fs => rfl

/-- Witness for the amended C4 at a concrete non-string stored vibe. -/
theorem C4_amended_selfheal_witness :
    vibe_block ⟨[("vibe", Json.num 7)], none⟩ none
      = ("Soft grind",
         ⟨[("vibe", Json.str "Soft grind")], some [("vibe", Json.str "Soft grind")]⟩) :=
  C4_amended_selfheal (Json.num 7) none (fun _ hv => nomatch hv)

/-- Claim C5 counterexample: the code has no `InvalidChoice` failure — the
update block at lines 166-168, given the non-member value
`"not-a-real-vibe"`, happily installs it in memory and persists it. -/
theorem C5_invalid_vibe_persisted :
    "not-a-real-vibe" ∉ VIBES
    ∧ vibe_update
        ⟨[("vibe", Json.str "Soft grind")], some [("vibe", Json.str "Soft grind")]⟩
        "not-a-real-vibe"
      = ⟨[("vibe", Json.str "not-a-real-vibe")],
         some [("vibe", Json.str "not-a-real-vibe")]⟩ :=
  ⟨by decide, rfl⟩

/-- Claim C5 as amended: the vibe-setting code performs no membership
validation and cannot fail — any value equal to the stored vibe is a no-op,
any other value (member of the set or not) is written and persisted;
invalid values are prevented only upstream, because the selectbox offers
exactly the elements of `VIBES`, so every vibe reachable through the UI is
a member of the set. -/
theorem C5_amended_no_validation :
    (∀ s v, dictGet s.settings "vibe" = some (Json.str v) → vibe_update s v = s)
    ∧ (∀ s v, dictGet s.settings "vibe" ≠ some (Json.str v) →
        vibe_update s v
          = ⟨dictSet s.settings "vibe" (Json.str v),
             some (dictSet s.settings "vibe" (Json.str v))⟩)
    ∧ (∀ s pick, (∀ i, pick = some i → i < VIBES.length) →
        (vibe_block s pick).1 ∈ VIBES) := by
  refine ⟨?_, ?_, ?_⟩
  · intro s v h
    simp [vibe_update, h]
  · intro s v h
    unfold vibe_update
    dsimp only
    cases hg : dictGet s.settings "vibe" with
    | none => rfl
    | some j =>
      cases j with
      | str w =>
        have hw : w ≠ v := by
          intro e
          exact h (by rw [hg, e])
        simp [bne_iff_ne.mpr hw]
      | null => rfl
      | bool b => rfl
      | num n => rfl
      | arr xs => rfl
      | obj fs => rfl
  · intro s pick h
    have hlt : pick.getD (vibe_default_index
        (dictGetD s.settings "vibe" (Json.str (VIBES.getD 0 "")))) < 6 := by
      cases pick with
      | none => exact vibe_default_index_lt _
      | some i => exact h i rfl
    exact vibes_getD_mem _ hlt

/-- Witness for the amended C5: a no-op equal set, a persisted non-member
set, and a UI pick that lands in the enumerated set. -/
theorem C5_amended_no_validation_witness :
    vibe_update ⟨[("vibe", Json.str "CEO mode")], none⟩ "CEO mode"
      = ⟨[("vibe", Json.str "CEO mode")], none⟩
    ∧ vibe_update ⟨[], none⟩ "definitely-invalid"
        = ⟨[("vibe", Json.str "definitely-invalid")],
           some [("vibe", Json.str "definitely-invalid")]⟩
    ∧ (vibe_block ⟨[], none⟩ (some 2)).1 ∈ VIBES := by
  refine ⟨C5_amended_no_validation.1 _ "CEO mode" rfl,
    ?_,
    C5_amended_no_validation.2.2 ⟨[], none⟩ (some 2) (fun i hi => by cases hi; decide)⟩
  exact C5_amended_no_validation.2.1 ⟨[], none⟩ "definitely-invalid"
    (fun hcontra => nomatch hcontra)

/-- Claim C1 counterexample: a network error / timeout on the points-lookup
request is NOT converted into a `(None, message)` failure value — the
`requests.get` exception propagates out of `get_nyc_forecast_periods`
(there is no try/except in the source), so "without raising an exception"
fails.  The forecast request is indeed never attempted (the request log is
just the points URL). -/
theorem C1_network_error_raises :
    get_nyc_forecast_periods envDown 3 = (.error .requestError, [pointsUrl]) := rfl

/-- Claim C1 as amended: a points-lookup response with a non-200 status
makes `get_nyc_forecast_periods` return the failure pair
`(None, "Could not load weather location")` without raising and without
attempting the forecast request; a network error or timeout on the
points-lookup, however, raises the underlying request exception to the
caller (still without attempting the forecast request) instead of
reporting the failure value. -/
theorem C1_amended_points_failure (env : String → HttpResult) (n : Nat) :
    (∀ status body, env pointsUrl = .response status body → status ≠ 200 →
      get_nyc_forecast_periods env n
        = (.ok (none, some "Could not load weather location"), [pointsUrl]))
    ∧ (env pointsUrl = .netError →
      get_nyc_forecast_periods env n = (.error .requestError, [pointsUrl])) := by
  constructor
  · intro status body h hs
    unfold get_nyc_forecast_periods
    rw [h]
    simp [hs]
  · intro h
    unfold get_nyc_forecast_periods
    rw [h]

/-- Witness for the amended C1: a concrete 500 response and a concrete
network failure on the points-lookup step. -/
theorem C1_amended_points_failure_witness :
    get_nyc_forecast_periods env500 3
      = (.ok (none, some "Could not load weather location"), [pointsUrl])
    ∧ get_nyc_forecast_periods envDown 3 = (.error .requestError, [pointsUrl]) :=
  ⟨(C1_amended_points_failure env500 3).1 500 none rfl (by decide),
   (C1_amended_points_failure envDown 3).2 rfl⟩

/-- Claim C8 counterexample: a period with no fields is cleaned with `name`
defaulted to `"Forecast"`, not to the empty string the claim states. -/
theorem C8_name_default_not_empty :
    (get_nyc_forecast_periods envOneEmptyPeriod 3).1
      = .ok (some [⟨Json.str "Forecast", Json.null, Json.str "F",
          Json.str "", Json.str "", Json.str ""⟩], none)
    ∧ Json.str "Forecast" ≠ Json.str "" := by
  constructor
  · rfl
  · intro hcontra
    injection hcontra with h2
    exact absurd h2 (by decide)

/-- Claim C8 as amended: for every `n` and every well-formed forecast
response whose periods clean without raising, `fetchPeriods` returns the
cleaned first `n` periods of the source's ordered list (or fewer when fewer
exist) with error `None`; missing fields are defaulted rather than failing
the request — but `name` defaults to `"Forecast"` (and the unit to `"F"`),
while `shortForecast`, `windSpeed` and `detailedForecast` default to the
empty string and the temperature to `None`. -/
theorem C8_amended_first_n (env : String → HttpResult) (n : Nat)
    (furl : String) (periods : List Json) (cleaned : List CleanedPeriod)
    (h1 : env pointsUrl = .response 200 (some (pointsBody furl)))
    (h2 : env furl = .response 200 (some (forecastBody periods)))
    (h3 : clean_periods (periods.take n) = .ok cleaned) :
    (get_nyc_forecast_periods env n).1 = .ok (some cleaned, none)
    ∧ cleaned.length ≤ n
    ∧ clean_period (Json.obj [])
        = .ok ⟨Json.str "Forecast", Json.null, Json.str "F",
            Json.str "", Json.str "", Json.str ""⟩ := by
  refine ⟨?_, ?_, rfl⟩
  · unfold get_nyc_forecast_periods
    rw [h1]
    simp only [pointsBody, forecastBody, jindex, dictGet, List.find?, bind,
      Except.bind, ne_eq, Option.map] at *
    simp [h2, h3]
  · rw [clean_periods_length _ _ h3, List.length_take]
    exact min_le_left _ _

/-- Witness for the amended C8: three periods served, two requested, the
first two cleaned in order with the source's defaults. -/
theorem C8_amended_first_n_witness :
    (get_nyc_forecast_periods envThreePeriods 2).1
      = .ok (some [⟨Json.str "Today", Json.num 70, Json.str "F",
            Json.str "", Json.str "", Json.str ""⟩,
          ⟨Json.str "Forecast", Json.null, Json.str "F",
            Json.str "", Json.str "", Json.str ""⟩], none)
    ∧ ([(⟨Json.str "Today", Json.num 70, Json.str "F",
            Json.str "", Json.str "", Json.str ""⟩ : CleanedPeriod),
        ⟨Json.str "Forecast", Json.null, Json.str "F",
            Json.str "", Json.str "", Json.str ""⟩]).length ≤ 2
    ∧ clean_period (Json.obj [])
        = .ok ⟨Json.str "Forecast", Json.null, Json.str "F",
            Json.str "", Json.str "", Json.str ""⟩ :=
  C8_amended_first_n envThreePeriods 2 "grid"
    [Json.obj [("name", Json.str "Today"), ("temperature", Json.num 70)],
     Json.obj [], Json.obj []]
    [⟨Json.str "Today", Json.num 70, Json.str "F",
        Json.str "", Json.str "", Json.str ""⟩,
     ⟨Json.str "Forecast", Json.null, Json.str "F",
        Json.str "", Json.str "", Json.str ""⟩]
    rfl rfl rfl

/-- Claim C9: whenever `get_nyc_forecast_periods` returns normally (does
not raise), the returned pair has exactly one `None` component: either no
result with a non-empty error message, or a period list with no error. -/
theorem C9_result_error_exclusive (env : String → HttpResult) (n : Nat)
    (r : Option (List CleanedPeriod)) (e : Option String)
    (h : (get_nyc_forecast_periods env n).1 = .ok (r, e)) :
    (r = none ∧ ∃ m, e = some m ∧ m ≠ "")
    ∨ ((∃ l, r = some l) ∧ e = none) := by
  unfold get_nyc_forecast_periods at h
  repeat' split at h
  all_goals simp_all
  · exact Or.inl ⟨"Could not load weather location", h.2.symm, by decide⟩
  · exact Or.inl ⟨"Could not load forecast", h.2.symm, by decide⟩
  · exact Or.inr ⟨_, h.1.symm⟩

/-- Witness for C9 at a concrete 500 response on the points lookup. -/
theorem C9_result_error_exclusive_witness :
    ((none : Option (List CleanedPeriod)) = none
      ∧ ∃ m, (some "Could not load weather location" : Option String)
          = some m ∧ m ≠ "")
    ∨ ((∃ l, (none : Option (List CleanedPeriod)) = some l)
      ∧ (some "Could not load weather location" : Option String) = none) :=
  C9_result_error_exclusive env500 3 none
    (some "Could not load weather location") rfl

end Dashboard
